import Mathlib

/-!
Shallow embedding of the reality-data-render-example repository
(src/reality-data-manager.ts and src/range-decorator.ts).

Modelling conventions:
* JavaScript numbers are modelled as rationals (ℚ); tolerance-based
  library predicates (Matrix3d.isIdentity) are modelled as exact
  equality, matching the spec phrase "exactly identity", and the
  comparison `magnitude() < 1.0e5` is modelled as
  `magnitudeSq < 1.0e10` (equivalent for non-negative reals, and
  rational-valued).
* Geodesy routines supplied by the external @itwin geometry library
  (Cartographic.toEcef, Cartographic.fromEcef,
  EcefLocation.createFromCartographicOrigin,
  YawPitchRollAngles.createFromMatrix3d) are parameters of the
  embedding, bundled in a `GeoLib` record: the manager code under
  verification only pipes their results around.
* A JavaScript property access on `undefined` (e.g.
  `rootDoc.root.boundingVolume.region` when `boundingVolume` is
  absent, or use of a TypeScript non-null assertion `!` on an
  `undefined` value) is modelled as `Except.error JsErr.typeError`.
* User-visible toaster notifications are collected in a list of
  message strings, in emission order.
-/

namespace RealityRender

/-- A 3d point (also used for vectors), coordinates as rationals. -/
structure Point3 where
  x : ℚ
  y : ℚ
  z : ℚ
deriving DecidableEq, Repr

namespace Point3

def zero : Point3 := ⟨0, 0, 0⟩

def add (p q : Point3) : Point3 := ⟨p.x + q.x, p.y + q.y, p.z + q.z⟩

def neg (p : Point3) : Point3 := ⟨-p.x, -p.y, -p.z⟩

/-- Squared Euclidean magnitude; stands in for `magnitude()` squared. -/
def magnitudeSq (p : Point3) : ℚ := p.x * p.x + p.y * p.y + p.z * p.z

/-- Cross product of two vectors. -/
def cross (p q : Point3) : Point3 :=
  ⟨p.y * q.z - p.z * q.y, p.z * q.x - p.x * q.z, p.x * q.y - p.y * q.x⟩

def minP (p q : Point3) : Point3 := ⟨min p.x q.x, min p.y q.y, min p.z q.z⟩

def maxP (p q : Point3) : Point3 := ⟨max p.x q.x, max p.y q.y, max p.z q.z⟩

end Point3

/-- A 3x3 matrix, row major, as in Matrix3d. -/
structure Matrix3 where
  r00 : ℚ
  r01 : ℚ
  r02 : ℚ
  r10 : ℚ
  r11 : ℚ
  r12 : ℚ
  r20 : ℚ
  r21 : ℚ
  r22 : ℚ
deriving DecidableEq, Repr

namespace Matrix3

def identity3 : Matrix3 := ⟨1, 0, 0, 0, 1, 0, 0, 0, 1⟩

/-- First column (Matrix3d.columnX). -/
def colX (m : Matrix3) : Point3 := ⟨m.r00, m.r10, m.r20⟩

/-- Second column (Matrix3d.columnY). -/
def colY (m : Matrix3) : Point3 := ⟨m.r01, m.r11, m.r21⟩

/-- Matrix times point. -/
def mulPoint (m : Matrix3) (p : Point3) : Point3 :=
  ⟨m.r00 * p.x + m.r01 * p.y + m.r02 * p.z,
   m.r10 * p.x + m.r11 * p.y + m.r12 * p.z,
   m.r20 * p.x + m.r21 * p.y + m.r22 * p.z⟩

/-- Matrix from three column vectors (Matrix3d.createColumns). -/
def fromColumns (cx cy cz : Point3) : Matrix3 :=
  ⟨cx.x, cy.x, cz.x, cx.y, cy.y, cz.y, cx.z, cy.z, cz.z⟩

def det (m : Matrix3) : ℚ :=
  m.r00 * (m.r11 * m.r22 - m.r12 * m.r21)
    - m.r01 * (m.r10 * m.r22 - m.r12 * m.r20)
    + m.r02 * (m.r10 * m.r21 - m.r11 * m.r20)

/-- Matrix inverse via the adjugate; `none` when singular. -/
def inv (m : Matrix3) : Option Matrix3 :=
  let d := det m
  if d = 0 then none
  else
    some ⟨(m.r11 * m.r22 - m.r12 * m.r21) / d,
          (m.r02 * m.r21 - m.r01 * m.r22) / d,
          (m.r01 * m.r12 - m.r02 * m.r11) / d,
          (m.r12 * m.r20 - m.r10 * m.r22) / d,
          (m.r00 * m.r22 - m.r02 * m.r20) / d,
          (m.r02 * m.r10 - m.r00 * m.r12) / d,
          (m.r10 * m.r21 - m.r11 * m.r20) / d,
          (m.r01 * m.r20 - m.r00 * m.r21) / d,
          (m.r00 * m.r11 - m.r01 * m.r10) / d⟩

end Matrix3

/-- An affine transform: point ↦ matrix * point + origin (Transform). -/
structure Transform where
  matrix : Matrix3
  origin : Point3
deriving DecidableEq, Repr

namespace Transform

def identityT : Transform := ⟨Matrix3.identity3, Point3.zero⟩

def mulPoint (t : Transform) (p : Point3) : Point3 :=
  (t.matrix.mulPoint p).add t.origin

/-- Transform.inverse; `none` when the matrix is singular. -/
def inverse (t : Transform) : Option Transform :=
  (t.matrix.inv).map fun mi => ⟨mi, (mi.mulPoint t.origin).neg⟩

end Transform

/-- An axis-aligned 3d range (Range3d); a range with `low > high` in some
coordinate is the null range. -/
structure Range3d where
  low : Point3
  high : Point3
deriving DecidableEq, Repr

namespace Range3d

/-- Stand-in for Number.MAX_VALUE used by Range3d.createNull. -/
def bigQ : ℚ := 10 ^ 308

def createNull : Range3d := ⟨⟨bigQ, bigQ, bigQ⟩, ⟨-bigQ, -bigQ, -bigQ⟩⟩

def isNull (r : Range3d) : Bool :=
  decide (r.low.x > r.high.x) || decide (r.low.y > r.high.y) || decide (r.low.z > r.high.z)

/-- Range3d.create from two points: the smallest range containing both. -/
def create2 (p q : Point3) : Range3d := ⟨p.minP q, p.maxP q⟩

/-- Range3d.createXYZXYZ: the range containing the two given corners. -/
def createXYZXYZ (ax ay az bx bystar bz : ℚ) : Range3d :=
  create2 ⟨ax, ay, az⟩ ⟨bx, bystar, bz⟩

/-- Range3d.extendRange: no-op when the other range is null, otherwise
extend to contain its corners. -/
def extendRange (r other : Range3d) : Range3d :=
  if other.isNull then r
  else ⟨r.low.minP other.low, r.high.maxP other.high⟩

def center (r : Range3d) : Point3 :=
  ⟨(r.low.x + r.high.x) / 2, (r.low.y + r.high.y) / 2, (r.low.z + r.high.z) / 2⟩

/-- Range3d.localXYZToWorld at fractions (1/2,1/2,1/2); `none` on a null
range, as in the library. -/
def localCenter (r : Range3d) : Option Point3 :=
  if r.isNull then none else some (center r)

def corners (r : Range3d) : List Point3 :=
  [⟨r.low.x, r.low.y, r.low.z⟩, ⟨r.high.x, r.low.y, r.low.z⟩,
   ⟨r.low.x, r.high.y, r.low.z⟩, ⟨r.high.x, r.high.y, r.low.z⟩,
   ⟨r.low.x, r.low.y, r.high.z⟩, ⟨r.high.x, r.low.y, r.high.z⟩,
   ⟨r.low.x, r.high.y, r.high.z⟩, ⟨r.high.x, r.high.y, r.high.z⟩]

end Range3d

/-- Transform.multiplyRange: null maps to null, otherwise the range of the
eight transformed corners. -/
def Transform.multiplyRange (t : Transform) (r : Range3d) : Range3d :=
  if r.isNull then Range3d.createNull
  else
    (r.corners.map t.mulPoint).foldl
      (fun acc p => ⟨acc.low.minP p, acc.high.maxP p⟩)
      ⟨t.mulPoint r.low, t.mulPoint r.low⟩

/-- Cartographic point: longitude/latitude in radians, height in meters. -/
structure Cartographic where
  longitude : ℚ
  latitude : ℚ
  height : ℚ
deriving DecidableEq, Repr

namespace Cartographic

def createZero : Cartographic := ⟨0, 0, 0⟩

def fromRadians (lon lat h : ℚ) : Cartographic := ⟨lon, lat, h⟩

/-- Rational stand-in for the degree-to-radian factor pi/180; the claims
only evaluate it at zero, where any factor gives zero. -/
def degToRad : ℚ := 31415926535897932 / 1800000000000000000

def fromDegrees (lon lat h : ℚ) : Cartographic := ⟨lon * degToRad, lat * degToRad, h⟩

end Cartographic

/-- Yaw/pitch/roll angles. -/
structure Ypr where
  yaw : ℚ
  pitch : ℚ
  roll : ℚ
deriving DecidableEq, Repr

def Ypr.zeroYpr : Ypr := ⟨0, 0, 0⟩

/-- An EcefLocation object: origin, orientation, optional frame vectors and
the location-to-ECEF transform the library derives for it. -/
structure EcefLocation where
  origin : Point3
  orientation : Ypr
  xVector : Option Point3
  yVector : Option Point3
  transform : Transform
deriving DecidableEq, Repr

/-- The `new EcefLocation({origin, xVector, yVector, orientation})`
construction used by parseRootDocument: the frame transform is built from
the two columns and their cross product. -/
def EcefLocation.fromVectors (origin xv yv : Point3) (a : Ypr) : EcefLocation :=
  { origin := origin, orientation := a, xVector := some xv, yVector := some yv,
    transform := ⟨Matrix3.fromColumns xv yv (xv.cross yv), origin⟩ }

/-- EcefLocationProps as written literally in the source (the
center-of-earth literal). -/
structure EcefLocationProps where
  origin : Point3
  orientation : Ypr
deriving DecidableEq, Repr

/-- The `centerOfEarth` literal of parseRootDocument / realityModelFromOPC. -/
def centerOfEarth : EcefLocationProps := ⟨Point3.zero, Ypr.zeroYpr⟩

/-- The union type `Cartographic | EcefLocationProps` together with the
case where a full EcefLocation object is stored in the field. -/
inductive LocationVal where
  | carto (c : Cartographic)
  | ecefProps (p : EcefLocationProps)
  | ecefLoc (e : EcefLocation)
deriving DecidableEq, Repr

/-- The GeoLocation interface: both fields optional. -/
structure GeoLocation where
  location : Option LocationVal
  extents : Option Range3d
deriving DecidableEq, Repr

/-- External geometry-library routines used by the manager, taken as
parameters of the embedding. -/
structure GeoLib where
  toEcef : Cartographic → Point3
  fromEcef : Point3 → Option Cartographic
  ecefLocFromCartographicOrigin : Cartographic → Option Point3 → EcefLocation
  yprFromMatrix : Matrix3 → Option Ypr

/-- A JavaScript runtime failure (property access on undefined, including
through a TypeScript non-null assertion). -/
inductive JsErr where
  | typeError
deriving DecidableEq, Repr

/-- Toast notifications collected in emission order. -/
abbrev Toasts := List String

/-- The JSON value found at boundingVolume.region: an array, some other
truthy value, or some other falsy value. -/
inductive RegionJson where
  | arrVal (l : List ℚ)
  | otherTruthy
  | otherFalsy
deriving DecidableEq, Repr

/-- JavaScript truthiness of the region value (arrays are always truthy). -/
def RegionJson.truthy : RegionJson → Bool
  | .arrVal _ => true
  | .otherTruthy => true
  | .otherFalsy => false

/-- JsonUtils.asArray: the value itself when it is an array, undefined
otherwise. -/
def asArray : RegionJson → Option (List ℚ)
  | .arrVal l => some l
  | _ => none

/-- The boundingVolume JSON node: an optional region value and, for the
transform branch, the range the library would extract from its
box/sphere content (`none` when rangeFromBoundingVolume yields
undefined). -/
structure BoundingVolume where
  region : Option RegionJson
  boxRange : Option Range3d
deriving DecidableEq, Repr

/-- RealityModelTileUtils.rangeFromBoundingVolume for the non-region
branch, modelled as the pre-extracted optional range. -/
def rangeFromBoundingVolume (bv : BoundingVolume) : Option Range3d := bv.boxRange

/-- The root node of the root document: optional boundingVolume and the
optional parsed transform (RealityModelTileUtils.transformFromJson). -/
structure RootNode where
  boundingVolume : Option BoundingVolume
  transform : Option Transform
deriving DecidableEq, Repr

/-- The root document JSON object. -/
structure RootDoc where
  root : Option RootNode
deriving DecidableEq, Repr

/-- The `cartoCenter && cartoCenter.height < -5000` test of line 302:
true when the ECEF point has a cartographic image more than 5 km below
ground. -/
def belowSurface (g : GeoLib) (p : Point3) : Bool :=
  match g.fromEcef p with
  | some c => decide (c.height < -5000)
  | none => false

/-- The transform (non-region) branch of parseRootDocument, lines 293-344. -/
def parseTransformBranch (g : GeoLib) (root : RootNode) (bv : BoundingVolume) :
    Toasts × Except JsErr (Option GeoLocation) :=
  let t := root.transform.getD Transform.identityT
  match rangeFromBoundingVolume bv with
  | none => ([], .error .typeError)
  | some rng =>
    let ecefRange := t.multiplyRange rng
    let ecefCenter := t.mulPoint rng.center
    let cartoCenter := g.fromEcef ecefCenter
    if (t.matrix = Matrix3.identity3) ∧
        ((rng.center.magnitudeSq < 10 ^ 10) ∨ belowSurface g ecefCenter = true) then
      ([], .ok (some ⟨some (.ecefProps centerOfEarth),
                      some (Range3d.createNull.extendRange ecefRange)⟩))
    else
      let finish : EcefLocation → Toasts × Except JsErr (Option GeoLocation) :=
        fun el =>
          match el.transform.inverse with
          | none => ([], .error .typeError)
          | some inv =>
            ([], .ok (some ⟨some (.ecefLoc el),
                            some (Range3d.createNull.extendRange (inv.multiplyRange ecefRange))⟩))
      if t.matrix ≠ Matrix3.identity3 then
        match g.yprFromMatrix t.matrix with
        | some a => finish (EcefLocation.fromVectors t.origin t.matrix.colX t.matrix.colY a)
        | none =>
          match cartoCenter with
          | none => ([], .error .typeError)
          | some cc => finish (g.ecefLocFromCartographicOrigin cc (some rng.center))
      else
        match cartoCenter with
        | none => ([], .error .typeError)
        | some cc => finish (g.ecefLocFromCartographicOrigin cc none)

/-- RealityDataManager.parseRootDocument, lines 255-345. The region branch
computes a location and extents but the only `return` statement of the
function body sits inside the `else` block, so the region branch falls
off the end of the function and yields `undefined`. -/
def parseRootDocument (g : GeoLib) (doc : RootDoc) :
    Toasts × Except JsErr (Option GeoLocation) :=
  match doc.root with
  | none => (["RootDocMissingRootProperty"], .ok none)
  | some root =>
    match root.boundingVolume with
    | none => ([], .error .typeError)
    | some bv =>
      match bv.region with
      | some rj =>
        if rj.truthy then
          match asArray rj with
          | none => (["RootDocMissingRegionProperty"], .ok none)
          | some region =>
            let cartoCenter := Cartographic.fromRadians
              ((region.getD 0 0 + region.getD 2 0) / 2)
              ((region.getD 1 0 + region.getD 3 0) / 2)
              ((region.getD 4 0 + region.getD 5 0) / 2)
            let ecefLocation := g.ecefLocFromCartographicOrigin cartoCenter none
            match ecefLocation.transform.inverse with
            | none => ([], .error .typeError)
            | some _ => ([], .ok none)
        else parseTransformBranch g root bv
      | none => parseTransformBranch g root bv

/-- The GeoLocation actually delivered by a run: `some` only when the
function returned a defined GeoLocation without throwing. -/
def deliveredGeo (r : Toasts × Except JsErr (Option GeoLocation)) : Option GeoLocation :=
  match r.2 with
  | .ok (some gl) => some gl
  | _ => none

/-- OrbitGt bounds of a point-cloud file. -/
structure OrbitBounds where
  minX : ℚ
  minY : ℚ
  minZ : ℚ
  maxX : ℚ
  maxY : ℚ
  maxZ : ℚ
deriving DecidableEq, Repr

/-- The configuration the code passes to the PageCachedFile constructor. -/
structure PageCacheCfg where
  pageSize : Nat
  maxPages : Nat
deriving DecidableEq, Repr

/-- External OPC-reading environment: the file bounds and CRS tag read by
OPCReader, and the CRSManager bounds transformation, as parameters. -/
structure OpcEnv where
  geo : GeoLib
  fileLength : ℚ
  bounds : OrbitBounds
  fileCrs : Option String
  transformBounds : OrbitBounds → OrbitBounds

/-- The Range3d built from the stored file bounds (line 372). -/
def opcFileRange (e : OpcEnv) : Range3d :=
  Range3d.createXYZXYZ e.bounds.minX e.bounds.minY e.bounds.minZ
    e.bounds.maxX e.bounds.maxY e.bounds.maxZ

/-- The Range3d built from the CRS-transformed bounds (line 387). -/
def opcEcefRange (e : OpcEnv) : Range3d :=
  let eb := e.transformBounds e.bounds
  Range3d.createXYZXYZ eb.minX eb.minY eb.minZ eb.maxX eb.maxY eb.maxZ

/-- The GeoLocation (or thrown type error) computed by
realityModelFromOPC after the PageCachedFile has been opened. -/
def opcGeoResult (e : OpcEnv) : Except JsErr GeoLocation :=
  let worldRange := opcFileRange e
  -- JavaScript truthiness of the CRS string: present and non-empty.
  if (match e.fileCrs with | some s => s != "" | none => false) = true then
    let ecefRange := opcEcefRange e
    match ecefRange.localCenter with
    | none => .error .typeError
    | some ecefCenter =>
      match e.geo.fromEcef ecefCenter with
      | none => .error .typeError
      | some cartoCenter =>
        let cc : Cartographic := { cartoCenter with height := 0 }
        let ecefLocation := e.geo.ecefLocFromCartographicOrigin cc none
        match ecefLocation.transform.inverse with
        | none => .error .typeError
        | some inv =>
          .ok ⟨some (.ecefLoc ecefLocation), some (inv.multiplyRange ecefRange)⟩
  else
    .ok ⟨some (.ecefProps centerOfEarth), some worldRange⟩

/-- RealityDataManager.realityModelFromOPC, lines 353-411. The first
component records the PageCachedFile configuration the code constructs
(page size 128 * 1024 bytes, 128 pages, line 368); the second is the
returned GeoLocation (or a thrown type error). -/
def realityModelFromOPC (e : OpcEnv) : PageCacheCfg × Except JsErr GeoLocation :=
  (⟨128 * 1024, 128⟩, opcGeoResult e)

/-- The ITwinRealityData record fields the manager reads. -/
structure RealityRecord where
  id : String
  displayName : Option String
  type : Option String
  rootDocument : Option String
  description : Option String
deriving DecidableEq, Repr

/-- A fault raised by the metadata fetch: an object carrying a numeric
errorNumber property, or anything else. -/
inductive FetchErr where
  | objWithNumber (n : Int)
  | otherErr
deriving DecidableEq, Repr

/-- RealityDataManager.fetchRealityData, lines 96-127: the fetch outcome is
a parameter; the result is the emitted notifications and the returned
record (undefined on any fault). -/
def fetchRealityData (res : Except FetchErr RealityRecord) :
    Toasts × Option RealityRecord :=
  match res with
  | .ok rd => ([], some rd)
  | .error e =>
    match e with
    | .objWithNumber n =>
      (((if n = 401 then ["Unauthorized"] else []) ++
        (if n = 404 then ["NotFound"] else []) ++
        (if n = 422 then ["SomethingWentWrong"] else [])), none)
    | .otherErr => (["SomethingWentWrongUnexpected"], none)

/-- The environment of a manager run: the external library parameters and
the outcomes of the awaited network operations. -/
structure MgrEnv where
  geo : GeoLib
  opc : OpcEnv
  blobUrl : String → String
  rootDocResponse : Option RootDoc
  fetchResult : Except FetchErr RealityRecord
  iTwinId : String

/-- The toUpperCase call on the declared type tag, as a kernel-computable
character-list map. -/
def jsToUpper (s : String) : String := String.mk (s.data.map Char.toUpper)

/-- The four recognized tile-set type tags (upper-cased). -/
def supportedTileTypes : List String :=
  ["CESIUM3DTILES", "PNTS", "REALITYMESH3DTILES", "TERRAIN3DTILES"]

/-- RealityDataManager.getRealityDataGeoLocation, lines 135-170. -/
def getRealityDataGeoLocation (env : MgrEnv) (rec : RealityRecord) :
    Toasts × Except JsErr (Option GeoLocation) :=
  let name := rec.displayName.getD rec.id
  let rootDocName := rec.rootDocument.getD (name ++ ".json")
  let _rootDocUrl := env.blobUrl rootDocName
  match rec.type with
  | some t =>
    if jsToUpper t = "OPC" then
      ([], (realityModelFromOPC env.opc).2.map some)
    else if jsToUpper t ∈ supportedTileTypes then
      match env.rootDocResponse with
      | none => (["RootDocumentError"], .ok none)
      | some doc => parseRootDocument env.geo doc
    else (["NotSupported"], .ok none)
  | none => (["NotSupported"], .ok none)

/-- The reality-data format of the source key. -/
inductive RDFormat where
  | OPC
  | ThreeDTile
deriving DecidableEq, Repr

/-- The ContextRealityModelProps fields the manager produces. -/
structure CRMProps where
  format : RDFormat
  tilesetUrl : String
  name : Option String
  description : Option String
  realityDataId : String
deriving DecidableEq, Repr

/-- The RealityDataProps interface. -/
structure RealityDataProps where
  realityData : Option CRMProps
  geoLocation : Option GeoLocation
deriving DecidableEq, Repr

/-- RealityDataManager.getRealityDataProps, lines 63-89. -/
def getRealityDataProps (env : MgrEnv) : Toasts × Except JsErr RealityDataProps :=
  let fr := fetchRealityData env.fetchResult
  match fr.2 with
  | none => (fr.1, .ok ⟨none, none⟩)
  | some rd =>
    let name := rd.displayName.getD rd.id
    let vis : CRMProps :=
      { format := if rd.type = some "OPC" then .OPC else .ThreeDTile,
        tilesetUrl := env.blobUrl "",
        name := some name,
        description := rd.description,
        realityDataId := rd.id }
    let gr := getRealityDataGeoLocation env rd
    match gr.2 with
    | .error e => (fr.1 ++ gr.1, .error e)
    | .ok gl => (fr.1 ++ gr.1, .ok ⟨some vis, gl⟩)

/-- The BlankConnectionProps fields the manager sets. -/
structure BlankConnectionProps where
  name : String
  location : LocationVal
  extents : Range3d
  iTwinId : String
deriving DecidableEq, Repr

/-- RealityDataManager.getBlankConnection, lines 177-194. -/
def getBlankConnection (iTwinId : String) (props : RealityDataProps) :
    BlankConnectionProps :=
  { name :=
      match props.realityData with
      | some rd => match rd.name with | some n => n | none => "Reality Data"
      | none => "Reality Data",
    location :=
      match props.geoLocation with
      | some g =>
        match g.location with
        | some l => l
        | none => .carto (Cartographic.fromDegrees 0 0 0)
      | none => .carto (Cartographic.fromDegrees 0 0 0),
    extents :=
      match props.geoLocation with
      | some g => match g.extents with | some e => e | none => Range3d.createNull
      | none => Range3d.createNull,
    iTwinId := iTwinId }

/-- A RangeDecoration instance: identity tag, stored extents, and whether
its decoration listener is currently registered. -/
structure DecInst where
  instId : Nat
  extents : Range3d
  hasListener : Bool
deriving DecidableEq, Repr

/-- Module-level decorator state: the static singleton reference, the ids
registered with IModelApp.viewManager, and a fresh-instance counter
modelling JavaScript object identity. -/
structure DecState where
  decorator : Option DecInst
  viewDecorators : List Nat
  nextId : Nat
deriving DecidableEq, Repr

namespace RangeDecoration

def initState : DecState := ⟨none, [], 0⟩

/-- The constructor, lines 15-19: store the singleton, store the extents,
and register the decoration listener. -/
def construct (r : Range3d) (s : DecState) : DecInst × DecState :=
  let d : DecInst := ⟨s.nextId, r, true⟩
  (d, ⟨some d, s.viewDecorators ++ [d.instId], s.nextId + 1⟩)

/-- RangeDecoration.getOrCreate, lines 66-68. -/
def getOrCreate (r : Range3d) (s : DecState) : DecInst × DecState :=
  match s.decorator with
  | some d => (d, s)
  | none => construct r s

/-- RangeDecoration.dispose, lines 70-79: stop the listener, clear the
singleton, and drop the decorator from the view manager. -/
def dispose (s : DecState) : DecState :=
  match s.decorator with
  | none => ⟨none, s.viewDecorators, s.nextId⟩
  | some d =>
    let afterStop :=
      if d.hasListener then s.viewDecorators.filter (fun i => i != d.instId)
      else s.viewDecorators
    ⟨none, afterStop.filter (fun i => i != d.instId), s.nextId⟩

/-- RangeDecoration.isActive, lines 35-37. -/
def isActive (s : DecState) : Bool := s.decorator.isSome

/-- RangeDecoration.updateExtents, lines 39-41, acting on the singleton. -/
def updateExtents (r : Range3d) (s : DecState) : DecState :=
  { s with decorator := s.decorator.map fun d => { d with extents := r } }

/-- The decoration output of one redraw request: each registered decorator
emits two graphics (world decoration and world overlay). -/
def renderOutput (s : DecState) : List (Nat × Nat) :=
  (s.viewDecorators.map fun i => [(i, 0), (i, 1)]).flatten

/-- The public operations on the decorator module state. -/
inductive DecOp where
  | create (r : Range3d)
  | disposeOp
  | update (r : Range3d)

def applyOp (s : DecState) : DecOp → DecState
  | .create r => (getOrCreate r s).2
  | .disposeOp => dispose s
  | .update r => updateExtents r s

/-- The state after running a sequence of operations from the initial
(absent) state. -/
def run (ops : List DecOp) : DecState := ops.foldl applyOp initState

/-- Invariant of reachable states: the view manager holds exactly the
current singleton instance, when that instance has a live listener. -/
def good (s : DecState) : Prop :=
  s.viewDecorators =
    (match s.decorator with
     | some d => if d.hasListener then [d.instId] else []
     | none => [])

end RangeDecoration

/-! Concrete instantiations used by witnesses: a simple computable
geodesy library and small concrete documents and environments. -/

/-- A concrete, fully computable geodesy library used to instantiate the
abstract `GeoLib` parameters in witnesses. -/
def testGeo : GeoLib :=
  { toEcef := fun c => ⟨c.longitude, c.latitude, c.height⟩,
    fromEcef := fun p => some ⟨p.x, p.y, p.z⟩,
    ecefLocFromCartographicOrigin := fun c _ =>
      { origin := ⟨c.longitude, c.latitude, c.height⟩, orientation := Ypr.zeroYpr,
        xVector := none, yVector := none,
        transform := ⟨Matrix3.identity3, ⟨c.longitude, c.latitude, c.height⟩⟩ },
    yprFromMatrix := fun _ => some Ypr.zeroYpr }

def regionBV : BoundingVolume := ⟨some (.arrVal [1/10, 1/5, 3/10, 2/5, 0, 100]), none⟩

def regionRoot : RootNode := ⟨some regionBV, none⟩

/-- A region-form root document with a valid six-element region array. -/
def regionDoc : RootDoc := ⟨some regionRoot⟩

/-- A document whose root exists but has no boundingVolume property. -/
def noBvDoc : RootDoc := ⟨some ⟨none, none⟩⟩

/-- A document with no root property. -/
def emptyDoc : RootDoc := ⟨none⟩

def badRegionBV : BoundingVolume := ⟨some .otherTruthy, none⟩

def badRegionRoot : RootNode := ⟨some badRegionBV, none⟩

/-- A document whose region value is truthy but not an array. -/
def badRegionDoc : RootDoc := ⟨some badRegionRoot⟩

def idBox : Range3d := Range3d.createXYZXYZ (-1) (-1) (-1) 1 1 1

def idBV : BoundingVolume := ⟨none, some idBox⟩

def idRoot : RootNode := ⟨some idBV, none⟩

/-- A transform-form document with no declared transform (hence identity)
and a small bounding box centered at the origin. -/
def idDoc : RootDoc := ⟨some idRoot⟩

/-- A non-identity rigid transform (mirror in z, translated). -/
def rotT : Transform := ⟨⟨1, 0, 0, 0, 1, 0, 0, 0, -1⟩, ⟨5, 6, 7⟩⟩

def rotBox : Range3d := Range3d.createXYZXYZ 10 10 10 20 20 20

def rotBV : BoundingVolume := ⟨none, some rotBox⟩

def rotRoot : RootNode := ⟨some rotBV, some rotT⟩

/-- A transform-form document carrying the non-identity transform. -/
def rotDoc : RootDoc := ⟨some rotRoot⟩

/-- An OPC environment whose file carries a CRS tag. -/
def testOpcCrs : OpcEnv := ⟨testGeo, 100, ⟨0, 0, 0, 2, 2, 2⟩, some "4978", fun b => b⟩

/-- An OPC environment whose file carries no CRS tag. -/
def testOpcNoCrs : OpcEnv := ⟨testGeo, 100, ⟨0, 0, 0, 2, 2, 2⟩, none, fun b => b⟩

/-- A record with a recognized tile-set type. -/
def tileRec : RealityRecord := ⟨"rd-1", some "Sample", some "Cesium3DTiles", none, none⟩

/-- A record with an unsupported declared type. -/
def fooRec : RealityRecord := ⟨"rd-2", none, some "KML", none, none⟩

/-- A manager environment with the given network outcomes. -/
def baseEnv (resp : Option RootDoc) (fr : Except FetchErr RealityRecord) : MgrEnv :=
  ⟨testGeo, testOpcCrs, fun s => s, resp, fr, "itwin-1"⟩

def envRespNone : MgrEnv := baseEnv none (.ok tileRec)

def env404 : MgrEnv := baseEnv none (.error (.objWithNumber 404))

/-- A sample geo-location with both fields populated. -/
def geoSample : GeoLocation := ⟨some (.carto ⟨1, 2, 3⟩), some idBox⟩

/-- Sample props with a geo-location but no visualization descriptor. -/
def propsSample : RealityDataProps := ⟨none, some geoSample⟩

/-! Claim theorems. -/

/-- C1: for every root document whose boundingVolume declares a region that
is a valid array, parseRootDocument never delivers a GeoLocation. The
function computes the region midpoint anchor but its only return statement
lies inside the transform-branch else block, so the region branch falls off
the end of the function and yields undefined. This refutes the claimed
midpoint-anchor result: the spec describes the evident intent and the code
drops the computed value. -/
theorem C1_region_delivers_no_geolocation (g : GeoLib) (doc : RootDoc)
    (root : RootNode) (bv : BoundingVolume) (l : List ℚ)
    (hroot : doc.root = some root) (hbv : root.boundingVolume = some bv)
    (hreg : bv.region = some (.arrVal l)) :
    deliveredGeo (parseRootDocument g doc) = none := by
  simp only [parseRootDocument, hroot, hbv, hreg, RegionJson.truthy, asArray, if_true]
  split <;> rfl

/-- C1 witness: the general theorem applied to a concrete region document
and the concrete geodesy library. -/
theorem C1_region_delivers_no_geolocation_witness :
    deliveredGeo (parseRootDocument testGeo regionDoc) = none :=
  C1_region_delivers_no_geolocation testGeo regionDoc regionRoot regionBV
    [1/10, 1/5, 3/10, 2/5, 0, 100] rfl rfl rfl

/-- C2 counterexample: a root document with a root property but no
boundingVolume property makes parseRootDocument evaluate
`rootDoc.root.boundingVolume.region`, a property access on undefined; the
resulting type error is not caught anywhere in the manager, and no
notification is emitted. This refutes the claim that every fault is caught
and surfaced as one notification with an undefined result. -/
theorem C2_missing_boundingVolume_throws :
    parseRootDocument testGeo noBvDoc = ([], .error .typeError) := rfl

/-- C2 amended: the faults the manager explicitly checks for are indeed
caught, surfaced as exactly one notification, and converted to an
undefined result: a failed root-document download, a document missing the
root property, and a truthy non-array region value. (A document whose root
lacks a boundingVolume instead raises an uncaught type error.) -/
theorem C2_checked_faults_degrade (g : GeoLib) (env : MgrEnv)
    (rec : RealityRecord) (t : String) (doc doc2 : RootDoc)
    (root : RootNode) (bv : BoundingVolume) :
    (rec.type = some t → jsToUpper t ∈ supportedTileTypes →
      env.rootDocResponse = none →
      getRealityDataGeoLocation env rec = (["RootDocumentError"], .ok none)) ∧
    (doc.root = none →
      parseRootDocument g doc = (["RootDocMissingRootProperty"], .ok none)) ∧
    (doc2.root = some root → root.boundingVolume = some bv →
      bv.region = some .otherTruthy →
      parseRootDocument g doc2 = (["RootDocMissingRegionProperty"], .ok none)) := by
  refine ⟨?_, ?_, ?_⟩
  · intro hty hmem hresp
    have hne : jsToUpper t ≠ "OPC" := by
      simp only [supportedTileTypes, List.mem_cons, List.not_mem_nil, or_false] at hmem
      rcases hmem with h | h | h | h <;> rw [h] <;> decide
    simp only [getRealityDataGeoLocation, hty, hresp]
    rw [if_neg hne, if_pos hmem]
  · intro h
    simp [parseRootDocument, h]
  · intro h1 h2 h3
    simp [parseRootDocument, h1, h2, h3, RegionJson.truthy, asArray]

/-- C2 witness: the amended theorem applied to concrete inputs for each of
the three checked faults. -/
theorem C2_checked_faults_degrade_witness :
    getRealityDataGeoLocation envRespNone tileRec = (["RootDocumentError"], .ok none) ∧
    parseRootDocument testGeo emptyDoc = (["RootDocMissingRootProperty"], .ok none) ∧
    parseRootDocument testGeo badRegionDoc = (["RootDocMissingRegionProperty"], .ok none) := by
  have h := C2_checked_faults_degrade testGeo envRespNone tileRec "Cesium3DTiles"
    emptyDoc badRegionDoc badRegionRoot badRegionBV
  exact ⟨h.1 rfl (by decide) rfl, h.2.1 rfl, h.2.2 rfl rfl rfl⟩

/-- C3 counterexample: a fetch fault carrying the numeric error code 500
(an object with an errorNumber property outside 401/404/422) produces zero
notifications, because the three code checks are independent if statements
with no final else. This refutes the claim that every fault class gets
exactly one user-visible notification. -/
theorem C3_unlisted_code_silent :
    fetchRealityData (.error (.objWithNumber 500)) = ([], none) := rfl

/-- C3 amended: faults carrying error code 401, 404 or 422 each yield
exactly one classified notification and an undefined record; faults without
a numeric error code yield exactly one unexpected-fault notification; a
fault carrying any other numeric code yields no notification; and a 404
fault makes getRealityDataProps return an empty RealityDataProps with
exactly one not-found notification. -/
theorem C3_fetch_fault_classification (n : Int) (env : MgrEnv) :
    (fetchRealityData (.error (.objWithNumber 401)) = (["Unauthorized"], none)) ∧
    (fetchRealityData (.error (.objWithNumber 404)) = (["NotFound"], none)) ∧
    (fetchRealityData (.error (.objWithNumber 422)) = (["SomethingWentWrong"], none)) ∧
    (n ≠ 401 → n ≠ 404 → n ≠ 422 →
      fetchRealityData (.error (.objWithNumber n)) = ([], none)) ∧
    (fetchRealityData (.error .otherErr) = (["SomethingWentWrongUnexpected"], none)) ∧
    (env.fetchResult = .error (.objWithNumber 404) →
      getRealityDataProps env = (["NotFound"], .ok ⟨none, none⟩)) := by
  refine ⟨rfl, rfl, rfl, ?_, rfl, ?_⟩
  · intro h1 h2 h3
    simp [fetchRealityData, h1, h2, h3]
  · intro h
    simp [getRealityDataProps, fetchRealityData, h]

/-- C3 witness: the amended theorem applied at error code 500 and at a
concrete environment whose fetch fails with error code 404. -/
theorem C3_fetch_fault_classification_witness :
    fetchRealityData (.error (.objWithNumber 500)) = ([], none) ∧
    getRealityDataProps env404 = (["NotFound"], .ok ⟨none, none⟩) ∧
    fetchRealityData (.error (.objWithNumber 404)) = (["NotFound"], none) := by
  have h := C3_fetch_fault_classification 500 env404
  exact ⟨h.2.2.2.1 (by decide) (by decide) (by decide), h.2.2.2.2.2 rfl, h.2.1⟩

/-- C4: for every transform-form root document (no region declared) whose
transform is exactly identity and whose bounding-volume center either lies
within 100 km of the Earth's center (squared magnitude below 1e10) or has
a cartographic image more than 5 km below ground, parseRootDocument
anchors at the Earth-center location with zero yaw/pitch/roll, whatever
the bounding volume is. -/
theorem C4_identity_transform_earth_center (g : GeoLib) (doc : RootDoc)
    (root : RootNode) (bv : BoundingVolume) (rng : Range3d)
    (hroot : doc.root = some root) (hbv : root.boundingVolume = some bv)
    (hreg : bv.region = none)
    (hid : root.transform.getD Transform.identityT = Transform.identityT)
    (hrng : bv.boxRange = some rng)
    (hcond : rng.center.magnitudeSq < 10 ^ 10 ∨
      belowSurface g (Transform.identityT.mulPoint rng.center) = true) :
    parseRootDocument g doc =
      ([], .ok (some ⟨some (.ecefProps centerOfEarth),
        some (Range3d.createNull.extendRange (Transform.identityT.multiplyRange rng))⟩)) := by
  simp only [parseRootDocument, hroot, hbv, hreg]
  simp only [parseTransformBranch, rangeFromBoundingVolume, hrng, hid]
  split
  · rfl
  · next h => exact absurd ⟨rfl, hcond⟩ h

/-- C4 witness: a concrete transform-form document with no transform entry
(hence identity) and a box centered at the origin. -/
theorem C4_identity_transform_earth_center_witness :
    parseRootDocument testGeo idDoc =
      ([], .ok (some ⟨some (.ecefProps centerOfEarth),
        some (Range3d.createNull.extendRange (Transform.identityT.multiplyRange idBox))⟩)) :=
  C4_identity_transform_earth_center testGeo idDoc idRoot idBV idBox
    rfl rfl rfl rfl rfl (Or.inl (by
      norm_num [idBox, Range3d.createXYZXYZ, Range3d.create2, Range3d.center,
        Point3.minP, Point3.maxP, Point3.magnitudeSq, min_def, max_def]))

/-- C5: for every transform-form root document whose transform has a
non-identity matrix from which yaw/pitch/roll angles can be extracted,
parseRootDocument builds the anchor directly from that transform: the
stored frame vectors are the matrix columns, the orientation is the
extracted angles, and the origin is the transform's translated origin. -/
theorem C5_nonidentity_transform_frame (g : GeoLib) (doc : RootDoc)
    (root : RootNode) (bv : BoundingVolume) (rng : Range3d)
    (t : Transform) (a : Ypr) (tinv : Transform)
    (hroot : doc.root = some root) (hbv : root.boundingVolume = some bv)
    (hreg : bv.region = none) (ht : root.transform = some t)
    (hrng : bv.boxRange = some rng)
    (hnid : t.matrix ≠ Matrix3.identity3)
    (hypr : g.yprFromMatrix t.matrix = some a)
    (hinv : (EcefLocation.fromVectors t.origin t.matrix.colX t.matrix.colY a).transform.inverse
      = some tinv) :
    parseRootDocument g doc =
      ([], .ok (some ⟨some (.ecefLoc
          (EcefLocation.fromVectors t.origin t.matrix.colX t.matrix.colY a)),
        some (Range3d.createNull.extendRange (tinv.multiplyRange (t.multiplyRange rng)))⟩)) ∧
    (EcefLocation.fromVectors t.origin t.matrix.colX t.matrix.colY a).origin = t.origin ∧
    (EcefLocation.fromVectors t.origin t.matrix.colX t.matrix.colY a).orientation = a := by
  refine ⟨?_, rfl, rfl⟩
  simp only [parseRootDocument, hroot, hbv, hreg]
  simp only [parseTransformBranch, rangeFromBoundingVolume, hrng, ht, Option.getD_some]
  rw [if_neg (fun hc => hnid hc.1), if_pos hnid]
  simp only [hypr, hinv]

/-- C5 witness: the concrete non-identity transform document. -/
theorem C5_nonidentity_transform_frame_witness :
    parseRootDocument testGeo rotDoc =
      ([], .ok (some ⟨some (.ecefLoc
          (EcefLocation.fromVectors rotT.origin rotT.matrix.colX rotT.matrix.colY Ypr.zeroYpr)),
        some (Range3d.createNull.extendRange
          ((⟨Matrix3.identity3, ⟨-5, -6, -7⟩⟩ : Transform).multiplyRange
            (rotT.multiplyRange rotBox)))⟩)) ∧
    (EcefLocation.fromVectors rotT.origin rotT.matrix.colX rotT.matrix.colY Ypr.zeroYpr).origin
      = rotT.origin ∧
    (EcefLocation.fromVectors rotT.origin rotT.matrix.colX rotT.matrix.colY Ypr.zeroYpr).orientation
      = Ypr.zeroYpr :=
  C5_nonidentity_transform_frame testGeo rotDoc rotRoot rotBV rotBox rotT Ypr.zeroYpr
    ⟨Matrix3.identity3, ⟨-5, -6, -7⟩⟩ rfl rfl rfl rfl rfl (by decide) rfl (by
      simp [EcefLocation.fromVectors, Transform.inverse, Matrix3.inv, Matrix3.det,
        Matrix3.fromColumns, Matrix3.colX, Matrix3.colY, Point3.cross,
        Matrix3.mulPoint, Point3.neg, Matrix3.identity3, rotT])

/-- A range created from two explicit corners is never the null range. -/
lemma createXYZXYZ_not_null (a b c d e f : ℚ) :
    (Range3d.createXYZXYZ a b c d e f).isNull = false := by
  simp only [Range3d.createXYZXYZ, Range3d.create2, Range3d.isNull,
    Point3.minP, Point3.maxP, Bool.or_eq_false_iff, decide_eq_false_iff_not, not_lt]
  exact ⟨⟨min_le_max, min_le_max⟩, min_le_max⟩

/-- The CRS-transformed OPC range is never null. -/
lemma opcEcefRange_not_null (e : OpcEnv) : (opcEcefRange e).isNull = false := by
  simp only [opcEcefRange]
  exact createXYZXYZ_not_null _ _ _ _ _ _

/-- C6: realityModelFromOPC opens the resource through a byte-range cache
of 128 KiB pages and 128 pages; with a CRS tag the anchor comes from the
ECEF bounds center with cartographic height forced to zero and the extents
are the ECEF bounds re-expressed relative to that anchor; without a CRS
tag the anchor is the Earth-center location with zero yaw/pitch/roll. -/
theorem C6_opc_geolocation (e : OpcEnv) :
    (realityModelFromOPC e).1 = ⟨128 * 1024, 128⟩ ∧
    (∀ s cc tinv, e.fileCrs = some s → s ≠ "" →
      e.geo.fromEcef (opcEcefRange e).center = some cc →
      (e.geo.ecefLocFromCartographicOrigin ⟨cc.longitude, cc.latitude, 0⟩ none).transform.inverse
        = some tinv →
      (realityModelFromOPC e).2 = .ok ⟨some (.ecefLoc
          (e.geo.ecefLocFromCartographicOrigin ⟨cc.longitude, cc.latitude, 0⟩ none)),
        some (tinv.multiplyRange (opcEcefRange e))⟩) ∧
    (e.fileCrs = none →
      (realityModelFromOPC e).2 = .ok ⟨some (.ecefProps centerOfEarth),
        some (opcFileRange e)⟩) := by
  refine ⟨rfl, ?_, ?_⟩
  · intro s cc tinv hcrs hs hfe hinv
    have hb : (match e.fileCrs with | some s => s != "" | none => false) = true := by
      rw [hcrs]
      simpa [bne_iff_ne] using hs
    show opcGeoResult e = _
    simp only [opcGeoResult, hb, if_true, Range3d.localCenter, opcEcefRange_not_null,
      Bool.false_eq_true, if_false]
    simp only [hfe, hinv]
  · intro h
    show opcGeoResult e = _
    simp only [opcGeoResult, h]
    rfl

/-- C6 witness: both the CRS and the no-CRS cases at concrete inputs. -/
theorem C6_opc_geolocation_witness :
    (realityModelFromOPC testOpcCrs).1 = ⟨128 * 1024, 128⟩ ∧
    (realityModelFromOPC testOpcCrs).2 = .ok ⟨some (.ecefLoc
        (testGeo.ecefLocFromCartographicOrigin ⟨1, 1, 0⟩ none)),
      some ((⟨Matrix3.identity3, ⟨-1, -1, 0⟩⟩ : Transform).multiplyRange
        (opcEcefRange testOpcCrs))⟩ ∧
    (realityModelFromOPC testOpcNoCrs).2 = .ok ⟨some (.ecefProps centerOfEarth),
      some (opcFileRange testOpcNoCrs)⟩ := by
  have h1 := C6_opc_geolocation testOpcCrs
  have h2 := C6_opc_geolocation testOpcNoCrs
  exact ⟨h1.1,
    h1.2.1 "4978" ⟨1, 1, 1⟩ ⟨Matrix3.identity3, ⟨-1, -1, 0⟩⟩ rfl (by decide)
      (by
        simp [testGeo, testOpcCrs, opcEcefRange, Range3d.center, Range3d.createXYZXYZ,
          Range3d.create2, Point3.minP, Point3.maxP, min_def, max_def])
      (by
        simp [testGeo, testOpcCrs, Transform.inverse, Matrix3.inv, Matrix3.det,
          Matrix3.mulPoint, Point3.neg, Matrix3.identity3]),
    h2.2.2 rfl⟩

/-- C7: two successive getOrCreate calls with no intervening dispose return
the same instance, and the second call changes nothing: the module state,
including the stored extents, is untouched. -/
theorem C7_getOrCreate_returns_existing (s : DecState) (r1 r2 : Range3d) :
    (RangeDecoration.getOrCreate r2 (RangeDecoration.getOrCreate r1 s).2).1 =
      (RangeDecoration.getOrCreate r1 s).1 ∧
    (RangeDecoration.getOrCreate r2 (RangeDecoration.getOrCreate r1 s).2).2 =
      (RangeDecoration.getOrCreate r1 s).2 := by
  rcases s with ⟨d, vd, n⟩
  cases d <;> exact ⟨rfl, rfl⟩

/-- The good invariant is preserved by every public operation. -/
lemma good_applyOp (s : DecState) (op : RangeDecoration.DecOp)
    (h : RangeDecoration.good s) : RangeDecoration.good (RangeDecoration.applyOp s op) := by
  rcases s with ⟨d, vd, n⟩
  rcases op with r | _ | r
  · cases d with
    | none =>
      simp only [RangeDecoration.good] at h
      simp [RangeDecoration.applyOp, RangeDecoration.getOrCreate,
        RangeDecoration.construct, RangeDecoration.good, h]
    | some d =>
      simpa [RangeDecoration.applyOp, RangeDecoration.getOrCreate,
        RangeDecoration.good] using h
  · cases d with
    | none =>
      simpa [RangeDecoration.applyOp, RangeDecoration.dispose,
        RangeDecoration.good] using h
    | some d =>
      simp only [RangeDecoration.good] at h
      cases hL : d.hasListener <;>
        simp_all [RangeDecoration.applyOp, RangeDecoration.dispose, RangeDecoration.good]
  · cases d with
    | none =>
      simpa [RangeDecoration.applyOp, RangeDecoration.updateExtents,
        RangeDecoration.good] using h
    | some d =>
      simp only [RangeDecoration.good] at h
      simp [RangeDecoration.applyOp, RangeDecoration.updateExtents,
        RangeDecoration.good, h]

/-- Every reachable state satisfies the good invariant. -/
lemma good_run (ops : List RangeDecoration.DecOp) :
    RangeDecoration.good (RangeDecoration.run ops) := by
  have key : ∀ s, RangeDecoration.good s →
      RangeDecoration.good (ops.foldl RangeDecoration.applyOp s) := by
    induction ops with
    | nil => exact fun s hs => hs
    | cons op rest ih => exact fun s hs => ih _ (good_applyOp s op hs)
  exact key _ rfl

/-- Disposing a good state empties the registered-decorator list. -/
lemma dispose_viewDecorators (s : DecState) (h : RangeDecoration.good s) :
    (RangeDecoration.dispose s).viewDecorators = [] := by
  rcases s with ⟨d, vd, n⟩
  cases d with
  | none => simpa [RangeDecoration.good, RangeDecoration.dispose] using h
  | some d =>
    simp only [RangeDecoration.good] at h
    cases hL : d.hasListener <;>
      simp_all [RangeDecoration.dispose]

/-- C8: after any dispose call on a reachable state, isActive is false and
a subsequent redraw request produces no decoration output: the decorator
is unregistered from the view manager and the singleton is cleared. -/
theorem C8_dispose_deactivates (ops : List RangeDecoration.DecOp) :
    RangeDecoration.isActive (RangeDecoration.dispose (RangeDecoration.run ops)) = false ∧
    RangeDecoration.renderOutput (RangeDecoration.dispose (RangeDecoration.run ops)) = [] := by
  constructor
  · rcases hs : RangeDecoration.run ops with ⟨d, vd, n⟩
    cases d <;> rfl
  · have h := dispose_viewDecorators (RangeDecoration.run ops) (good_run ops)
    simp [RangeDecoration.renderOutput, h]

/-- C9: a record whose declared type is, case-insensitively, none of OPC,
Cesium3DTiles, PNTS, RealityMesh3DTiles or Terrain3DTiles makes
getRealityDataGeoLocation return undefined with exactly one
unsupported-type notification. -/
theorem C9_unsupported_type (env : MgrEnv) (rec : RealityRecord)
    (h : ∀ t, rec.type = some t → jsToUpper t ∉ "OPC" :: supportedTileTypes) :
    getRealityDataGeoLocation env rec = (["NotSupported"], .ok none) := by
  rcases htype : rec.type with _ | t
  · simp [getRealityDataGeoLocation, htype]
  · have h2 := h t htype
    simp only [List.mem_cons, not_or] at h2
    simp [getRealityDataGeoLocation, htype, h2.1, h2.2]

/-- C9 witness: a record declaring the unsupported type KML. -/
theorem C9_unsupported_type_witness :
    getRealityDataGeoLocation envRespNone fooRec = (["NotSupported"], .ok none) :=
  C9_unsupported_type envRespNone fooRec (by intro t ht; cases ht; decide)

/-- C10: getBlankConnection always produces fully populated connection
properties: the name defaults to Reality Data, the location defaults to
the zero cartographic point, the extents default to the null range, the
iTwin id is passed through, and a present location or extents value is
passed through unchanged. -/
theorem C10_blank_connection_defaults (itw : String) (props : RealityDataProps) :
    (props.realityData = none → (getBlankConnection itw props).name = "Reality Data") ∧
    (props.geoLocation = none →
      (getBlankConnection itw props).location = .carto ⟨0, 0, 0⟩ ∧
      (getBlankConnection itw props).extents = Range3d.createNull) ∧
    (∀ g l, props.geoLocation = some g → g.location = some l →
      (getBlankConnection itw props).location = l) ∧
    (∀ g e, props.geoLocation = some g → g.extents = some e →
      (getBlankConnection itw props).extents = e) ∧
    (getBlankConnection itw props).iTwinId = itw := by
  refine ⟨?_, ?_, ?_, ?_, rfl⟩
  · intro h
    simp [getBlankConnection, h]
  · intro h
    constructor <;> simp [getBlankConnection, h, Cartographic.fromDegrees]
  · intro g l hg hl
    simp [getBlankConnection, hg, hl]
  · intro g e hg he
    simp [getBlankConnection, hg, he]

/-- C10 witness: the empty props take every default; sample geo-location
values pass through unchanged. -/
theorem C10_blank_connection_defaults_witness :
    (getBlankConnection "itwin-1" ⟨none, none⟩).name = "Reality Data" ∧
    (getBlankConnection "itwin-1" ⟨none, none⟩).location = .carto ⟨0, 0, 0⟩ ∧
    (getBlankConnection "itwin-1" ⟨none, none⟩).extents = Range3d.createNull ∧
    (getBlankConnection "itwin-1" propsSample).location = .carto ⟨1, 2, 3⟩ ∧
    (getBlankConnection "itwin-1" propsSample).extents = idBox := by
  have h1 := C10_blank_connection_defaults "itwin-1" ⟨none, none⟩
  have h2 := C10_blank_connection_defaults "itwin-1" propsSample
  exact ⟨h1.1 rfl, (h1.2.1 rfl).1, (h1.2.1 rfl).2,
    h2.2.2.1 geoSample _ rfl rfl, h2.2.2.2.1 geoSample _ rfl rfl⟩

end RealityRender
